import Mathlib

/-!
Shallow embedding of `pkg/symbol/elfutils/elfutils.go` (package `elfutils`).

The Go package answers classification questions about ELF object files
(`HasDWARF`, `IsSymbolizableGoObjFile`, `IsGoObjFile`, `HasSymbols`,
`ValidateFile`) and validates a raw ELF header read from a byte stream
(`ValidateHeader`).

Modelling choices, all taken from the source:
- An opened ELF file is its ordered section list plus the outcome of
  `(*elf.File).Symbols()`: `none` models the error return (for example a
  stripped binary with no symbol table), `some syms` the successful read of
  the symbol names.  Section names are Go strings, modelled as Lean
  `String`; every name involved is ASCII so byte indexing and character
  indexing agree.
- Section types are the numeric `elf.SectionType` values:
  `SHT_PROGBITS = 1`, `SHT_SYMTAB = 2`, `SHT_DYNSYM = 11`.
- `ValidateHeader` consumes a byte stream; the stream is a `List Nat` of
  byte values.  `io.LimitReader(r, 64)` caps the bytes read at 64; the
  `limitio` writer keeps the first 16 of those for the identification
  array, which is zero-initialised, so a short stream yields an
  identification array padded with zeroes — `List.getD _ _ 0` models this
  exactly.
-/

/-- Section type value of `elf.SHT_PROGBITS`. -/
def SHT_PROGBITS : Nat := 1

/-- Section type value of `elf.SHT_SYMTAB`. -/
def SHT_SYMTAB : Nat := 2

/-- Section type value of `elf.SHT_DYNSYM`. -/
def SHT_DYNSYM : Nat := 11

/-- An ELF section as used by the package: its name and its type
(`elf.Section.Name`, `elf.Section.Type`). -/
structure ElfSection where
  name : String
  type : Nat
deriving DecidableEq

/-- An opened ELF file (`elf.File`) as the package uses it: the ordered
section list and the result of `Symbols()` (`none` = the symbol read
fails, e.g. `ErrNoSymbols` on a stripped binary). -/
structure ElfFile where
  sections : List ElfSection
  symbols : Option (List String)
deriving DecidableEq

/-- Go `strings.HasPrefix p s` (the argument order here is prefix first):
true iff the first `len p` bytes of `s` equal `p`. -/
def hasPrefixStr (p s : String) : Bool :=
  s.data.take p.data.length == p.data

/-- Go string slicing `s[n:]` (drop the first `n` bytes; all prefixes cut
here are ASCII, so characters and bytes coincide). -/
def dropStr (s : String) (n : Nat) : String :=
  String.mk (s.data.drop n)

/-- The `dwarfSuffix` classifier of the source: strip `".debug_"`,
`".zdebug_"` or `"__debug_"` (in that order) from a section name; return
`""` when no prefix matches. -/
def dwarfSuffix (s : ElfSection) : String :=
  if hasPrefixStr ".debug_" s.name then dropStr s.name 7
  else if hasPrefixStr ".zdebug_" s.name then dropStr s.name 8
  else if hasPrefixStr "__debug_" s.name then dropStr s.name 8
  else ""

/-- The suffix keys of the `sections` map in `readableDWARFSections`:
"abbrev", "info", "str", "line", "ranges". -/
def dwarfSectionNames : List String := ["abbrev", "info", "str", "line", "ranges"]

/-- The `readableDWARFSections` helper: the suffixes of sections whose
`dwarfSuffix` is non-empty, is one of the five recognized kinds, and whose
type is `SHT_PROGBITS`.  The Go code collects these into a set and only
its emptiness is consumed, so a list is an adequate model. -/
def readableDWARFSections (f : ElfFile) : List String :=
  f.sections.filterMap fun s =>
    if dwarfSuffix s ≠ "" ∧ dwarfSuffix s ∈ dwarfSectionNames ∧ s.type = SHT_PROGBITS
    then some (dwarfSuffix s) else none

/-- `HasDWARF` after a successful open: `len(sections) > 0`. -/
def hasDWARF (f : ElfFile) : Bool :=
  !(readableDWARFSections f).isEmpty

/-- `IsGoObjFile` after a successful open: scan for a section named
`".note.go.buildid"`. -/
def isGoObjFile (f : ElfFile) : Bool :=
  f.sections.any fun s => s.name == ".note.go.buildid"

/-- `HasSymbols` after a successful open: scan for a section of type
`SHT_SYMTAB` or `SHT_DYNSYM`. -/
def hasSymbols (f : ElfFile) : Bool :=
  f.sections.any fun s => s.type == SHT_SYMTAB || s.type == SHT_DYNSYM

/-- `ValidateFile` after a successful open: error iff the section list is
empty ("ELF does not have any sections"). -/
def validateFile (f : ElfFile) : Option String :=
  if f.sections.length = 0 then some "ELF does not have any sections" else none

/-- The outcome of `IsSymbolizableGoObjFile` after a successful open:
`ok b` is `(b, nil)`, `symbolReadError` the wrapped `Symbols()` error,
`notSymbolizableError` the "failed to detect .gopclntab section or
section has no bits" error. -/
inductive GoObjResult where
  | ok (b : Bool)
  | symbolReadError
  | notSymbolizableError
deriving DecidableEq

/-- `(*elf.File).Section(name)` of the standard library: the FIRST section
with the given name, or `none`. -/
def sectionByName (f : ElfFile) (name : String) : Option ElfSection :=
  f.sections.find? fun s => s.name == name

/-- The symbol names `IsSymbolizableGoObjFile` scans for:
`"runtime.main"`, `"main.main"`, `"runtime.buildVersion"`. -/
def isGoSymbolName (n : String) : Bool :=
  n == "runtime.main" || n == "main.main" || n == "runtime.buildVersion"

/-- The final `.gopclntab` check of `IsSymbolizableGoObjFile`: look up the
first section named `".gopclntab"`; `(true, nil)` if it exists with type
`SHT_PROGBITS`, otherwise the `notSymbolizableError`. -/
def gopclntabCheck (f : ElfFile) : GoObjResult :=
  match sectionByName f ".gopclntab" with
  | some sec => if sec.type = SHT_PROGBITS then .ok true else .notSymbolizableError
  | none => .notSymbolizableError

/-- `IsSymbolizableGoObjFile` after a successful open: classify the file
as Go-produced via the `".note.go.buildid"` section, falling back to the
well-known symbol names when the section is absent (propagating a
`Symbols()` failure); non-Go files give `(false, nil)`; Go files then go
through the `.gopclntab` check. -/
def isSymbolizableGoObjFile (f : ElfFile) : GoObjResult :=
  if f.sections.any (fun s => s.name == ".note.go.buildid") then
    gopclntabCheck f
  else
    match f.symbols with
    | none => .symbolReadError
    | some syms =>
      if syms.any isGoSymbolName then gopclntabCheck f else .ok false

/-- Helper for stating claims: the file has a `".note.go.buildid"`
section. -/
def hasGoBuildIdSection (f : ElfFile) : Bool :=
  f.sections.any fun s => s.name == ".note.go.buildid"

/-- The distinct error outcomes of `ValidateHeader`.  `readErrorEOF` is
`io.EOF` from reading an empty buffer; `readErrorUnexpectedEOF` is
`binary.Read` running out of bytes mid-header; the `format…` cases are the
`fmt.Errorf` format errors (each carrying the offending raw value exactly
as the Go error message does); the `struct…` cases are the three final
consistency errors. -/
inductive VHError where
  | readErrorEOF
  | readErrorUnexpectedEOF
  | formatBadMagic (m0 m1 m2 m3 : Nat)
  | formatBadClass (c : Nat)
  | formatBadData (d : Nat)
  | formatBadIdentVersion (v : Nat)
  | formatBadHeaderVersion (v : Nat)
  | structShoffZero (shnum : Nat)
  | structShstrndx (shstrndx shnum : Nat)
  | structNoSections
deriving DecidableEq

/-- Read errors: `io.EOF` and `io.ErrUnexpectedEOF`. -/
def VHError.isReadError : VHError → Bool
  | .readErrorEOF => true
  | .readErrorUnexpectedEOF => true
  | _ => false

/-- Format errors: the `fmt.Errorf` cases for magic, class, data encoding
and the two version fields. -/
def VHError.isFormatError : VHError → Bool
  | .formatBadMagic _ _ _ _ => true
  | .formatBadClass _ => true
  | .formatBadData _ => true
  | .formatBadIdentVersion _ => true
  | .formatBadHeaderVersion _ => true
  | _ => false

/-- Byte `i` of the buffered stream; `0` past the end, exactly as the
zero-initialised `ident` array is left when `buf.Read` delivers fewer
than 16 bytes. -/
def byteAt (b : List Nat) (i : Nat) : Nat :=
  b.getD i 0

/-- Decode a 16-bit field at offset `off`; `d = 1` is `ELFDATA2LSB`
(little endian), otherwise big endian as selected for `ELFDATA2MSB`. -/
def u16at (d : Nat) (b : List Nat) (off : Nat) : Nat :=
  if d = 1 then byteAt b off + 256 * byteAt b (off + 1)
  else byteAt b (off + 1) + 256 * byteAt b off

/-- Decode a 32-bit field at offset `off` with data encoding `d`. -/
def u32at (d : Nat) (b : List Nat) (off : Nat) : Nat :=
  if d = 1 then
    byteAt b off + 256 * byteAt b (off + 1) + 65536 * byteAt b (off + 2) +
      16777216 * byteAt b (off + 3)
  else
    byteAt b (off + 3) + 256 * byteAt b (off + 2) + 65536 * byteAt b (off + 1) +
      16777216 * byteAt b off

/-- Decode a 64-bit field at offset `off` with data encoding `d`. -/
def u64at (d : Nat) (b : List Nat) (off : Nat) : Nat :=
  if d = 1 then u32at 1 b off + 4294967296 * u32at 1 b (off + 4)
  else u32at d b (off + 4) + 4294967296 * u32at d b off

/-- The three consistency checks at the end of `ValidateHeader`, on the
decoded section-header offset, section count and string-table index
(`shoff`, `shnum`, `shstrndx`).  `shnum` and `shstrndx` come from
`uint16` fields, so the Go `int` values are non-negative and `shnum <= 0`
is `shnum = 0`. -/
def checkCounts (shoff shnum shstrndx : Nat) : Option VHError :=
  if shoff = 0 ∧ shnum ≠ 0 then some (.structShoffZero shnum)
  else if 0 < shnum ∧ shnum ≤ shstrndx then some (.structShstrndx shstrndx shnum)
  else if shnum = 0 then some .structNoSections
  else none

/-- The `binary.Read` of the class-selected header record, from the START
of the buffered bytes (`r = bytes.NewReader(b)` is re-created over all
buffered bytes, and `elf.Header32`/`elf.Header64` begin with the 16
identification bytes).  `elf.Header32` is 52 bytes (`Version` at offset
20, `Shoff` at 32, `Shnum` at 48, `Shstrndx` at 50); `elf.Header64` is 64
bytes (`Version` at 20, `Shoff` at 40, `Shnum` at 60, `Shstrndx` at 62).
A buffer shorter than the record gives `io.ErrUnexpectedEOF` (the buffer
is non-empty whenever this point is reached).  The decoded `uint32`
version is converted to `elf.Version`, a byte type, so only its low 8
bits are compared with the identification version `fv`. -/
def decodeAndCheck (c d fv : Nat) (b : List Nat) : Option VHError :=
  if c = 1 then
    if b.length < 52 then some .readErrorUnexpectedEOF
    else if u32at d b 20 % 256 = fv then
      checkCounts (u32at d b 32) (u16at d b 48) (u16at d b 50)
    else some (.formatBadHeaderVersion (u32at d b 20 % 256))
  else
    if b.length < 64 then some .readErrorUnexpectedEOF
    else if u32at d b 20 % 256 = fv then
      checkCounts (u64at d b 40) (u16at d b 60) (u16at d b 62)
    else some (.formatBadHeaderVersion (u32at d b 20 % 256))

/-- The body of `ValidateHeader` on the buffered bytes `b` (at most 64
bytes).  `buf.Read(ident[:])` returns `io.EOF` only when the buffer is
empty; otherwise the identification array holds the first `min 16 |b|`
bytes zero-padded to 16, which `byteAt b` models for indices below 16.
Then the magic, class (`ELFCLASS32 = 1`, `ELFCLASS64 = 2`), data encoding
(`ELFDATA2LSB = 1`, `ELFDATA2MSB = 2`) and version (`EV_CURRENT = 1`)
checks run in order, each failure short-circuiting with its format
error. -/
def vhCore (b : List Nat) : Option VHError :=
  if b.length = 0 then some .readErrorEOF
  else if byteAt b 0 = 127 ∧ byteAt b 1 = 69 ∧ byteAt b 2 = 76 ∧ byteAt b 3 = 70 then
    if byteAt b 4 = 1 ∨ byteAt b 4 = 2 then
      if byteAt b 5 = 1 ∨ byteAt b 5 = 2 then
        if byteAt b 6 = 1 then
          decodeAndCheck (byteAt b 4) (byteAt b 5) (byteAt b 6) b
        else some (.formatBadIdentVersion (byteAt b 6))
      else some (.formatBadData (byteAt b 5))
    else some (.formatBadClass (byteAt b 4))
  else some (.formatBadMagic (byteAt b 0) (byteAt b 1) (byteAt b 2) (byteAt b 3))

/-- `ValidateHeader` on a byte stream: `io.LimitReader(r, 64)` buffers at
most the first 64 bytes, then the checks run on that buffer.  `none` is
the `nil` (accepting) return. -/
def validateHeader (input : List Nat) : Option VHError :=
  vhCore (input.take 64)


/-! Theorems for the claims. -/

/-- C5: `IsGoObjFile` returns true iff some section is named exactly
`".note.go.buildid"`; the verdict is independent of the file's symbols,
and (the model being a total function on opened files) no error other
than open failure is possible. -/
theorem spec_C5 (f : ElfFile) :
    (isGoObjFile f = true ↔ ∃ s ∈ f.sections, s.name = ".note.go.buildid") ∧
    (∀ o : Option (List String), isGoObjFile ⟨f.sections, o⟩ = isGoObjFile f) := by
  constructor
  · simp [isGoObjFile, List.any_eq_true]
  · intro o
    rfl

/-- C6: `HasSymbols` returns true iff at least one section has type
`SHT_SYMTAB` or `SHT_DYNSYM`; renaming every section (and the symbol
list) leaves the verdict unchanged. -/
theorem spec_C6 (f : ElfFile) :
    (hasSymbols f = true ↔ ∃ s ∈ f.sections, s.type = SHT_SYMTAB ∨ s.type = SHT_DYNSYM) ∧
    (∀ g : String → String, ∀ o : Option (List String),
      hasSymbols ⟨f.sections.map (fun s => ⟨g s.name, s.type⟩), o⟩ = hasSymbols f) := by
  constructor
  · simp [hasSymbols, List.any_eq_true]
  · intro g o
    simp only [hasSymbols, List.any_map]
    congr 1

/-- C7: on a file with an empty section sequence, `HasDWARF`,
`HasSymbols` and `IsGoObjFile` all return false with no error, while
`ValidateFile` returns an error. -/
theorem spec_C7 (f : ElfFile) (h : f.sections = []) :
    hasDWARF f = false ∧ hasSymbols f = false ∧ isGoObjFile f = false ∧
      validateFile f ≠ none := by
  simp [hasDWARF, readableDWARFSections, hasSymbols, isGoObjFile, validateFile, h]

/-- Witness for C7 at the concrete empty file. -/
theorem spec_C7_witness :
    hasDWARF ⟨[], none⟩ = false ∧ hasSymbols ⟨[], none⟩ = false ∧
      isGoObjFile ⟨[], none⟩ = false ∧ validateFile ⟨[], none⟩ ≠ none :=
  spec_C7 ⟨[], none⟩ rfl

/-- C9: `ValidateHeader` is a deterministic function of the stream
contents, and its verdict depends only on at most the first 64 bytes:
streams agreeing on their first 64 bytes get identical verdicts. -/
theorem spec_C9 (l1 l2 : List Nat) (h : l1.take 64 = l2.take 64) :
    validateHeader l1 = validateHeader l2 := by
  unfold validateHeader
  rw [h]

/-- Witness for C9: an 80-byte stream and its 64-byte truncation get the
same verdict. -/
theorem spec_C9_witness :
    validateHeader (List.replicate 80 7) = validateHeader (List.replicate 64 7) :=
  spec_C9 (List.replicate 80 7) (List.replicate 64 7) (by decide)

/-- C10: with no `".note.go.buildid"` section and an unreadable symbol
list, `IsSymbolizableGoObjFile` returns the symbol-read error rather than
`(false, nil)`; and when the build-id section is present the symbol list
is never consulted, so its readability cannot affect the result. -/
theorem spec_C10 (f : ElfFile) :
    (hasGoBuildIdSection f = false → f.symbols = none →
      isSymbolizableGoObjFile f = .symbolReadError) ∧
    (hasGoBuildIdSection f = true → ∀ o1 o2 : Option (List String),
      isSymbolizableGoObjFile ⟨f.sections, o1⟩ = isSymbolizableGoObjFile ⟨f.sections, o2⟩) := by
  constructor
  · intro hb hs
    unfold isSymbolizableGoObjFile
    unfold hasGoBuildIdSection at hb
    rw [hb, hs]
    rfl
  · intro hb o1 o2
    unfold isSymbolizableGoObjFile
    unfold hasGoBuildIdSection at hb
    rw [hb]
    rfl

/-- Witness for C10 at a stripped non-Go file and a Go file with two
different symbol-list outcomes. -/
theorem spec_C10_witness :
    isSymbolizableGoObjFile ⟨[], none⟩ = .symbolReadError ∧
    isSymbolizableGoObjFile ⟨[⟨".note.go.buildid", 7⟩], none⟩ =
      isSymbolizableGoObjFile ⟨[⟨".note.go.buildid", 7⟩], some ["runtime.main"]⟩ :=
  ⟨(spec_C10 ⟨[], none⟩).1 rfl rfl,
   (spec_C10 ⟨[⟨".note.go.buildid", 7⟩], none⟩).2 (by decide) none (some ["runtime.main"])⟩

/-- A file counts as Go-toolchain-produced for `IsSymbolizableGoObjFile`:
either the `".note.go.buildid"` section is present, or the symbol list is
readable and holds one of the three well-known Go symbol names. -/
def goClassified (f : ElfFile) : Prop :=
  hasGoBuildIdSection f = true ∨
    ∃ syms, f.symbols = some syms ∧ syms.any isGoSymbolName = true

/-- On a Go-classified file, `IsSymbolizableGoObjFile` reduces to the
`.gopclntab` check. -/
theorem isSymbolizableGoObjFile_of_goClassified (f : ElfFile) (h : goClassified f) :
    isSymbolizableGoObjFile f = gopclntabCheck f := by
  unfold isSymbolizableGoObjFile
  by_cases hb : (f.sections.any fun s => s.name == ".note.go.buildid") = true
  · rw [hb]
    rfl
  · rw [Bool.not_eq_true] at hb
    rw [hb]
    rcases h with h | ⟨syms, hsy, hany⟩
    · exact absurd h (by simp [hasGoBuildIdSection, hb])
    · simp only [hsy, hany, if_true]
      rfl

/-- C2 counterexample: the claim, as stated, is false on the code.  In
this file a section named `".gopclntab"` with type `SHT_PROGBITS` exists
and the file is classified as toolchain-produced, yet the function does
not return `(true, nil)`: `(*elf.File).Section` returns the FIRST section
of that name, whose type here is not `SHT_PROGBITS`, so the
`NotSymbolizableError` is returned instead. -/
theorem spec_C2_counterexample :
    hasGoBuildIdSection
        ⟨[⟨".note.go.buildid", 7⟩, ⟨".gopclntab", 0⟩, ⟨".gopclntab", 1⟩], some []⟩ = true ∧
    (∃ s ∈ ([⟨".note.go.buildid", 7⟩, ⟨".gopclntab", 0⟩, ⟨".gopclntab", 1⟩] : List ElfSection),
      s.name = ".gopclntab" ∧ s.type = SHT_PROGBITS) ∧
    isSymbolizableGoObjFile
        ⟨[⟨".note.go.buildid", 7⟩, ⟨".gopclntab", 0⟩, ⟨".gopclntab", 1⟩], some []⟩ ≠
      .ok true := by
  refine ⟨by decide, ⟨⟨".gopclntab", 1⟩, by decide, by decide, by decide⟩, by decide⟩

/-- C2 amended: for a file that opens successfully (with the existential
"a section named .gopclntab exists with type SHT_PROGBITS" corrected to
"the FIRST section named .gopclntab exists and has type SHT_PROGBITS"):
(1) not toolchain-classified (no build-id section, readable symbol list
without the well-known names) gives `(false, nil)`; (2) toolchain-
classified with a first `.gopclntab` section of type `SHT_PROGBITS` gives
`(true, nil)`; (3) toolchain-classified with that section absent or of
another type gives the `NotSymbolizableError`, not a plain false. -/
theorem spec_C2 (f : ElfFile) :
    (∀ syms, hasGoBuildIdSection f = false → f.symbols = some syms →
      syms.any isGoSymbolName = false → isSymbolizableGoObjFile f = .ok false) ∧
    (∀ sec, goClassified f → sectionByName f ".gopclntab" = some sec →
      sec.type = SHT_PROGBITS → isSymbolizableGoObjFile f = .ok true) ∧
    (goClassified f → (∀ sec, sectionByName f ".gopclntab" = some sec → sec.type ≠ SHT_PROGBITS) →
      isSymbolizableGoObjFile f = .notSymbolizableError) := by
  refine ⟨?_, ?_, ?_⟩
  · intro syms hb hsy hany
    unfold isSymbolizableGoObjFile
    unfold hasGoBuildIdSection at hb
    rw [hb, hsy]
    simp only [hany]
    rfl
  · intro sec hcl hsec htype
    rw [isSymbolizableGoObjFile_of_goClassified f hcl]
    unfold gopclntabCheck
    rw [hsec]
    show (if sec.type = SHT_PROGBITS then GoObjResult.ok true
          else GoObjResult.notSymbolizableError) = GoObjResult.ok true
    rw [if_pos htype]
  · intro hcl hsec
    rw [isSymbolizableGoObjFile_of_goClassified f hcl]
    unfold gopclntabCheck
    cases hfind : sectionByName f ".gopclntab" with
    | none => rfl
    | some sec =>
      show (if sec.type = SHT_PROGBITS then GoObjResult.ok true
            else GoObjResult.notSymbolizableError) = GoObjResult.notSymbolizableError
      rw [if_neg (hsec sec hfind)]

/-- Witness for C2 at three concrete files, one per outcome. -/
theorem spec_C2_witness :
    isSymbolizableGoObjFile ⟨[⟨".text", 1⟩], some ["foo"]⟩ = .ok false ∧
    isSymbolizableGoObjFile ⟨[⟨".note.go.buildid", 7⟩, ⟨".gopclntab", 1⟩], none⟩ = .ok true ∧
    isSymbolizableGoObjFile ⟨[⟨".note.go.buildid", 7⟩], none⟩ = .notSymbolizableError :=
  ⟨(spec_C2 ⟨[⟨".text", 1⟩], some ["foo"]⟩).1 ["foo"] (by decide) rfl (by decide),
   (spec_C2 ⟨[⟨".note.go.buildid", 7⟩, ⟨".gopclntab", 1⟩], none⟩).2.1 ⟨".gopclntab", 1⟩
     (Or.inl (by decide)) (by decide) rfl,
   (spec_C2 ⟨[⟨".note.go.buildid", 7⟩], none⟩).2.2 (Or.inl (by decide))
     (fun sec hsec => by simp [sectionByName] at hsec)⟩

/-- A name with the compressed-debug prefix does not have the standard
debug prefix (the second characters differ). -/
theorem not_debug_of_zdebug (n : String) (h : hasPrefixStr ".zdebug_" n = true) :
    hasPrefixStr ".debug_" n = false := by
  unfold hasPrefixStr at *
  rw [beq_iff_eq, show (".zdebug_".data.length : Nat) = 8 from by decide] at h
  rw [beq_eq_false_iff_ne, show (".debug_".data.length : Nat) = 7 from by decide]
  intro hc
  have h7 : (n.data.take 8).take 7 = n.data.take 7 := by
    rw [List.take_take]
    norm_num
  rw [h, hc] at h7
  exact absurd h7 (by decide)

/-- A name with the Apple debug prefix does not have the standard debug
prefix (the first characters differ). -/
theorem not_debug_of_uscore (n : String) (h : hasPrefixStr "__debug_" n = true) :
    hasPrefixStr ".debug_" n = false := by
  unfold hasPrefixStr at *
  rw [beq_iff_eq, show ("__debug_".data.length : Nat) = 8 from by decide] at h
  rw [beq_eq_false_iff_ne, show (".debug_".data.length : Nat) = 7 from by decide]
  intro hc
  have h7 : (n.data.take 8).take 7 = n.data.take 7 := by
    rw [List.take_take]
    norm_num
  rw [h, hc] at h7
  exact absurd h7 (by decide)

/-- A name with the Apple debug prefix does not have the compressed-debug
prefix (the first characters differ). -/
theorem not_zdebug_of_uscore (n : String) (h : hasPrefixStr "__debug_" n = true) :
    hasPrefixStr ".zdebug_" n = false := by
  unfold hasPrefixStr at *
  rw [beq_iff_eq, show ("__debug_".data.length : Nat) = 8 from by decide] at h
  rw [beq_eq_false_iff_ne, show (".zdebug_".data.length : Nat) = 8 from by decide]
  intro hc
  rw [h] at hc
  exact absurd hc (by decide)

/-- Every recognized DWARF suffix is a non-empty string. -/
theorem mem_dwarfSectionNames_ne_empty {x : String} (h : x ∈ dwarfSectionNames) :
    x ≠ "" := by
  fin_cases h <;> decide

/-- The classifier hits a recognized kind exactly when the name carries
one of the three debug prefixes and stripping it leaves a recognized
kind. -/
theorem dwarfSuffix_mem_iff (s : ElfSection) :
    dwarfSuffix s ∈ dwarfSectionNames ↔
      ∃ p ∈ ([".debug_", ".zdebug_", "__debug_"] : List String),
        hasPrefixStr p s.name = true ∧ dropStr s.name p.data.length ∈ dwarfSectionNames := by
  constructor
  · intro h
    unfold dwarfSuffix at h
    by_cases h1 : hasPrefixStr ".debug_" s.name = true
    · rw [if_pos h1] at h
      exact ⟨".debug_", by simp, h1,
        by rw [show (".debug_".data.length : Nat) = 7 from by decide]; exact h⟩
    · rw [if_neg h1] at h
      by_cases h2 : hasPrefixStr ".zdebug_" s.name = true
      · rw [if_pos h2] at h
        exact ⟨".zdebug_", by simp, h2,
          by rw [show (".zdebug_".data.length : Nat) = 8 from by decide]; exact h⟩
      · rw [if_neg h2] at h
        by_cases h3 : hasPrefixStr "__debug_" s.name = true
        · rw [if_pos h3] at h
          exact ⟨"__debug_", by simp, h3,
            by rw [show ("__debug_".data.length : Nat) = 8 from by decide]; exact h⟩
        · rw [if_neg h3] at h
          exact absurd h (by decide)
  · rintro ⟨p, hp, hpre, hmem⟩
    unfold dwarfSuffix
    simp only [List.mem_cons, List.not_mem_nil, or_false] at hp
    rcases hp with rfl | rfl | rfl
    · rw [if_pos hpre]
      rw [show (".debug_".data.length : Nat) = 7 from by decide] at hmem
      exact hmem
    · rw [if_neg (by rw [not_debug_of_zdebug s.name hpre]; exact Bool.false_ne_true),
          if_pos hpre]
      rw [show (".zdebug_".data.length : Nat) = 8 from by decide] at hmem
      exact hmem
    · rw [if_neg (by rw [not_debug_of_uscore s.name hpre]; exact Bool.false_ne_true),
          if_neg (by rw [not_zdebug_of_uscore s.name hpre]; exact Bool.false_ne_true),
          if_pos hpre]
      rw [show ("__debug_".data.length : Nat) = 8 from by decide] at hmem
      exact hmem

/-- A list is non-empty-as-Bool exactly when it is not the nil list. -/
theorem isEmpty_false_iff {α : Type} (l : List α) : l.isEmpty = false ↔ l ≠ [] := by
  cases l <;> simp

/-- The DWARF detector is an existence check over sections. -/
theorem hasDWARF_iff_exists (f : ElfFile) :
    hasDWARF f = true ↔
      ∃ s ∈ f.sections, dwarfSuffix s ∈ dwarfSectionNames ∧ s.type = SHT_PROGBITS := by
  unfold hasDWARF readableDWARFSections
  rw [Bool.not_eq_true', isEmpty_false_iff, Ne, List.filterMap_eq_nil_iff]
  push_neg
  constructor
  · rintro ⟨s, hs, hFs⟩
    by_cases hcond : dwarfSuffix s ≠ "" ∧ dwarfSuffix s ∈ dwarfSectionNames ∧
        s.type = SHT_PROGBITS
    · exact ⟨s, hs, hcond.2.1, hcond.2.2⟩
    · rw [if_neg hcond] at hFs
      exact absurd rfl hFs
  · rintro ⟨s, hs, hmem, htype⟩
    refine ⟨s, hs, ?_⟩
    rw [if_pos ⟨mem_dwarfSectionNames_ne_empty hmem, hmem, htype⟩]
    exact Option.some_ne_none _

/-- C1: `HasDWARF` returns true iff some section's name, after stripping
exactly one of the prefixes `".debug_"`, `".zdebug_"` or `"__debug_"`, is
one of the five canonical kinds and the section's type is `SHT_PROGBITS`;
otherwise it returns false, with no error possible after a successful
open. -/
theorem spec_C1 (f : ElfFile) :
    hasDWARF f = true ↔
      ∃ s ∈ f.sections,
        (∃ p ∈ ([".debug_", ".zdebug_", "__debug_"] : List String),
          hasPrefixStr p s.name = true ∧
            dropStr s.name p.data.length ∈ ["abbrev", "info", "str", "line", "ranges"]) ∧
        s.type = SHT_PROGBITS := by
  rw [hasDWARF_iff_exists]
  constructor
  · rintro ⟨s, hs, hmem, ht⟩
    exact ⟨s, hs, (dwarfSuffix_mem_iff s).mp hmem, ht⟩
  · rintro ⟨s, hs, hex, ht⟩
    exact ⟨s, hs, (dwarfSuffix_mem_iff s).mpr hex, ht⟩

/-- C3: for a 64-byte little-endian 64-bit-class stream whose
identification and header fields are otherwise valid (magic, class 2,
little-endian encoding, version 1 in both version fields, non-zero
section-header offset, positive section count), the string-table index
equal to the section count is rejected with the index-out-of-bounds
error, while an index of exactly one less is accepted with `nil`. -/
theorem spec_C3 (l : List Nat)
    (hlen : l.length = 64)
    (h0 : byteAt l 0 = 127) (h1 : byteAt l 1 = 69) (h2 : byteAt l 2 = 76)
    (h3 : byteAt l 3 = 70)
    (hc : byteAt l 4 = 2) (hd : byteAt l 5 = 1) (hv : byteAt l 6 = 1)
    (hhv : u32at 1 l 20 = 1) (hshoff : u64at 1 l 40 ≠ 0) (hshnum : 0 < u16at 1 l 60) :
    (u16at 1 l 62 = u16at 1 l 60 →
      validateHeader l = some (.structShstrndx (u16at 1 l 62) (u16at 1 l 60))) ∧
    (u16at 1 l 62 + 1 = u16at 1 l 60 → validateHeader l = none) := by
  have hb : l.take 64 = l := List.take_of_length_le (by omega)
  have hstep : validateHeader l =
      checkCounts (u64at 1 l 40) (u16at 1 l 60) (u16at 1 l 62) := by
    unfold validateHeader vhCore
    rw [hb, if_neg (by omega : ¬ l.length = 0), if_pos ⟨h0, h1, h2, h3⟩,
        if_pos (Or.inr hc), if_pos (Or.inl hd), if_pos hv, hc, hd, hv]
    unfold decodeAndCheck
    rw [if_neg (by norm_num : ¬ (2 : Nat) = 1), if_neg (by omega : ¬ l.length < 64),
        if_pos (by rw [hhv] : u32at 1 l 20 % 256 = 1)]
  rw [hstep]
  unfold checkCounts
  rw [if_neg (fun hand => hshoff hand.1)]
  constructor
  · intro heq
    rw [if_pos ⟨hshnum, by omega⟩]
  · intro hlt
    rw [if_neg (by rintro ⟨hp, hle⟩; omega), if_neg (by omega : ¬ u16at 1 l 60 = 0)]

/-- A 64-byte little-endian 64-bit-class header, valid except that its
string-table index (3) equals its section count (3). -/
def hdr64boundary : List Nat :=
  [127, 69, 76, 70, 2, 1, 1, 0, 0, 0, 0, 0, 0, 0, 0, 0,
   0, 0, 0, 0, 1, 0, 0, 0, 0, 0, 0, 0, 0, 0, 0, 0,
   0, 0, 0, 0, 0, 0, 0, 0, 64, 0, 0, 0, 0, 0, 0, 0,
   0, 0, 0, 0, 0, 0, 0, 0, 0, 0, 0, 0, 3, 0, 3, 0]

/-- The same header with the string-table index (2) one less than the
section count (3). -/
def hdr64accept : List Nat :=
  [127, 69, 76, 70, 2, 1, 1, 0, 0, 0, 0, 0, 0, 0, 0, 0,
   0, 0, 0, 0, 1, 0, 0, 0, 0, 0, 0, 0, 0, 0, 0, 0,
   0, 0, 0, 0, 0, 0, 0, 0, 64, 0, 0, 0, 0, 0, 0, 0,
   0, 0, 0, 0, 0, 0, 0, 0, 0, 0, 0, 0, 3, 0, 2, 0]

/-- Witness for C3 at the two concrete boundary headers. -/
theorem spec_C3_witness :
    validateHeader hdr64boundary = some (.structShstrndx 3 3) ∧
    validateHeader hdr64accept = none :=
  ⟨(spec_C3 hdr64boundary (by decide) (by decide) (by decide) (by decide) (by decide)
      (by decide) (by decide) (by decide) (by decide) (by decide) (by decide)).1 (by decide),
   (spec_C3 hdr64accept (by decide) (by decide) (by decide) (by decide) (by decide)
      (by decide) (by decide) (by decide) (by decide) (by decide) (by decide)).2 (by decide)⟩

/-- C4 counterexample: the claim, as stated, is false on the code.  The
one-byte stream `[0]` is shorter than 16 bytes, yet `ValidateHeader`
returns a FORMAT error (invalid magic over the zero-padded
identification bytes), not a read error: `bytes.Buffer.Read` delivers the
single byte without error and leaves the rest of the zero-initialised
identification array untouched. -/
theorem spec_C4_counterexample :
    ([0] : List Nat).length < 16 ∧
    validateHeader [0] = some (.formatBadMagic 0 0 0 0) ∧
    VHError.isFormatError (.formatBadMagic 0 0 0 0) = true ∧
    VHError.isReadError (.formatBadMagic 0 0 0 0) = false := by
  decide

/-- C4 amended: every stream shorter than 16 bytes is rejected — with a
read error or a format error over the zero-padded identification bytes —
never accepted; and every 64-byte stream whose first four bytes differ
from the fixed magic gets the format error naming the actual first four
bytes seen. -/
theorem spec_C4 :
    (∀ l : List Nat, l.length < 16 →
      ∃ e, validateHeader l = some e ∧ (e.isReadError = true ∨ e.isFormatError = true)) ∧
    (∀ l : List Nat, l.length = 64 →
      ¬(byteAt l 0 = 127 ∧ byteAt l 1 = 69 ∧ byteAt l 2 = 76 ∧ byteAt l 3 = 70) →
      validateHeader l =
        some (.formatBadMagic (byteAt l 0) (byteAt l 1) (byteAt l 2) (byteAt l 3))) := by
  constructor
  · intro l hl
    have hb : l.take 64 = l := List.take_of_length_le (by omega)
    unfold validateHeader vhCore
    rw [hb]
    by_cases h0 : l.length = 0
    · rw [if_pos h0]
      exact ⟨.readErrorEOF, rfl, Or.inl rfl⟩
    rw [if_neg h0]
    by_cases hm : byteAt l 0 = 127 ∧ byteAt l 1 = 69 ∧ byteAt l 2 = 76 ∧ byteAt l 3 = 70
    case neg =>
      rw [if_neg hm]
      exact ⟨_, rfl, Or.inr rfl⟩
    rw [if_pos hm]
    by_cases hcl : byteAt l 4 = 1 ∨ byteAt l 4 = 2
    case neg =>
      rw [if_neg hcl]
      exact ⟨_, rfl, Or.inr rfl⟩
    rw [if_pos hcl]
    by_cases hda : byteAt l 5 = 1 ∨ byteAt l 5 = 2
    case neg =>
      rw [if_neg hda]
      exact ⟨_, rfl, Or.inr rfl⟩
    rw [if_pos hda]
    by_cases hvv : byteAt l 6 = 1
    case neg =>
      rw [if_neg hvv]
      exact ⟨_, rfl, Or.inr rfl⟩
    rw [if_pos hvv]
    unfold decodeAndCheck
    rcases hcl with hc1 | hc2
    · rw [hc1, if_pos rfl, if_pos (by omega : l.length < 52)]
      exact ⟨_, rfl, Or.inl rfl⟩
    · rw [hc2, if_neg (by norm_num : ¬ (2 : Nat) = 1), if_pos (by omega : l.length < 64)]
      exact ⟨_, rfl, Or.inl rfl⟩
  · intro l hl hm
    have hb : l.take 64 = l := List.take_of_length_le (by omega)
    unfold validateHeader vhCore
    rw [hb, if_neg (by omega : ¬ l.length = 0), if_neg hm]

/-- Witness for C4 at a one-byte stream and an all-zero 64-byte stream. -/
theorem spec_C4_witness :
    (∃ e, validateHeader [0] = some e ∧ (e.isReadError = true ∨ e.isFormatError = true)) ∧
    validateHeader (List.replicate 64 0) =
      some (.formatBadMagic (byteAt (List.replicate 64 0) 0) (byteAt (List.replicate 64 0) 1)
        (byteAt (List.replicate 64 0) 2) (byteAt (List.replicate 64 0) 3)) :=
  ⟨spec_C4.1 [0] (by decide), spec_C4.2 (List.replicate 64 0) (by decide) (by decide)⟩

/-- C8: a stream with a fully valid 16-byte identification (magic,
recognized class and data encoding, current version) but shorter than the
class-dictated header size (52 bytes for class 1, 64 bytes for class 2)
is rejected with a read error (`io.ErrUnexpectedEOF` from the header
`binary.Read`), never accepted. -/
theorem spec_C8 (l : List Nat)
    (hlen : 16 ≤ l.length)
    (h0 : byteAt l 0 = 127) (h1 : byteAt l 1 = 69) (h2 : byteAt l 2 = 76)
    (h3 : byteAt l 3 = 70)
    (hcl : byteAt l 4 = 1 ∨ byteAt l 4 = 2)
    (hda : byteAt l 5 = 1 ∨ byteAt l 5 = 2)
    (hvv : byteAt l 6 = 1)
    (hshort : l.length < if byteAt l 4 = 1 then 52 else 64) :
    validateHeader l = some .readErrorUnexpectedEOF ∧
      VHError.isReadError .readErrorUnexpectedEOF = true := by
  refine ⟨?_, rfl⟩
  have hl64 : l.length < 64 := by
    by_cases h : byteAt l 4 = 1
    · rw [if_pos h] at hshort
      omega
    · rw [if_neg h] at hshort
      omega
  have hb : l.take 64 = l := List.take_of_length_le (by omega)
  unfold validateHeader vhCore
  rw [hb, if_neg (by omega : ¬ l.length = 0), if_pos ⟨h0, h1, h2, h3⟩, if_pos hcl,
      if_pos hda, if_pos hvv]
  unfold decodeAndCheck
  rcases hcl with hc1 | hc2
  · rw [hc1, if_pos rfl, if_pos (by rw [if_pos hc1] at hshort; omega : l.length < 52)]
  · rw [hc2, if_neg (by norm_num : ¬ (2 : Nat) = 1), if_pos (by omega : l.length < 64)]

/-- Witness for C8 at a 16-byte stream with a valid 64-bit-class
identification. -/
theorem spec_C8_witness :
    validateHeader [127, 69, 76, 70, 2, 1, 1, 0, 0, 0, 0, 0, 0, 0, 0, 0] =
      some .readErrorUnexpectedEOF ∧
      VHError.isReadError .readErrorUnexpectedEOF = true :=
  spec_C8 [127, 69, 76, 70, 2, 1, 1, 0, 0, 0, 0, 0, 0, 0, 0, 0] (by decide) (by decide)
    (by decide) (by decide) (by decide) (Or.inr (by decide)) (Or.inl (by decide))
    (by decide) (by decide)
